import Mathlib

/-!
Verification of the WebSub → Discord announcement bot (`src/main.py`).

The development shallowly embeds the program's pure core:

* `verify_signature` — the HMAC-SHA1 signature check of `_verify_signature`,
  over a full executable SHA-1/HMAC implementation (bytes as `Nat < 256`,
  32-bit words as `Nat` reduced mod `2^32`);
* `parse_atom_for_video` — the Atom-entry extraction, over an XML element
  tree (the output of `xml.etree.ElementTree.fromstring`);
* `announce_video` — the dedup-and-dispatch path, with the process-global
  `seen_video_ids` set threaded explicitly and Discord effects recorded as
  an event trace;
* `websub_get` / `handle_post` — the two HTTP handlers, with the response
  status and the created background task made explicit;
* `subscribe_websub` — the hub subscription call, with the outgoing request
  list made explicit.
-/

namespace DiscordBot

/-! ## 32-bit words as `Nat` -/

/-- The word modulus `2^32`. -/
def M32 : Nat := 4294967296

/-- Bitwise AND on 32-bit words. -/
def band (a b : Nat) : Nat := a &&& b

/-- Bitwise OR on 32-bit words. -/
def bor (a b : Nat) : Nat := a ||| b

/-- Bitwise XOR on 32-bit words. -/
def bxor (a b : Nat) : Nat := a ^^^ b

/-- Bitwise complement of a 32-bit word. -/
def bnot (a : Nat) : Nat := 4294967295 - a % M32

/-- Left-rotate a 32-bit word by `n` places (`0 < n < 32`, argument `< 2^32`). -/
def rotl (x n : Nat) : Nat := (x * 2 ^ n + x / 2 ^ (32 - n)) % M32

/-! ## SHA-1 (FIPS 180-4), bytes as `Nat < 256` -/

/-- The `k` low-order bytes of `n`, big-endian. -/
def beBytes (k n : Nat) : List Nat :=
  (List.range k).map (fun i => n / 2 ^ (8 * (k - 1 - i)) % 256)

/-- Merkle–Damgård padding: `0x80`, zeros, then the 64-bit big-endian
bit length, to a multiple of 64 bytes. -/
def sha1Pad (msg : List Nat) : List Nat :=
  msg ++ [128] ++ List.replicate ((119 - msg.length % 64) % 64) 0 ++ beBytes 8 (8 * msg.length)

/-- Split a byte list into 64-byte blocks (`fuel` bounds the recursion). -/
def chunks64 : Nat → List Nat → List (List Nat)
  | 0, _ => []
  | _, [] => []
  | fuel + 1, l => l.take 64 :: chunks64 fuel (l.drop 64)

/-- Big-endian 32-bit words from a byte list. -/
def beWords : List Nat → List Nat
  | b0 :: b1 :: b2 :: b3 :: rest => (((b0 * 256 + b1) * 256 + b2) * 256 + b3) :: beWords rest
  | _ => []

/-- Extend the 16-word message schedule by `n` further words. -/
def sha1Extend : Nat → List Nat → List Nat
  | 0, w => w
  | n + 1, w =>
      let i := w.length
      let x := rotl (bxor (bxor (w.getD (i - 3) 0) (w.getD (i - 8) 0))
                          (bxor (w.getD (i - 14) 0) (w.getD (i - 16) 0))) 1
      sha1Extend n (w ++ [x])

/-- The SHA-1 round function for round `i`. -/
def sha1F (i b c d : Nat) : Nat :=
  if i < 20 then bor (band b c) (band (bnot b) d)
  else if i < 40 then bxor (bxor b c) d
  else if i < 60 then bor (bor (band b c) (band b d)) (band c d)
  else bxor (bxor b c) d

/-- The SHA-1 round constant for round `i`. -/
def sha1K (i : Nat) : Nat :=
  if i < 20 then 1518500249
  else if i < 40 then 1859775393
  else if i < 60 then 2400959708
  else 3395469782

/-- One SHA-1 round on the five-word working state. -/
def sha1Round (st : Nat × Nat × Nat × Nat × Nat) (iw : Nat × Nat) : Nat × Nat × Nat × Nat × Nat :=
  let (a, b, c, d, e) := st
  let (i, w) := iw
  ((rotl a 5 + sha1F i b c d + e + sha1K i + w) % M32, a, rotl b 30, c, d)

/-- Process one 64-byte block into the running hash state. -/
def sha1Block (h : Nat × Nat × Nat × Nat × Nat) (block : List Nat) : Nat × Nat × Nat × Nat × Nat :=
  let w := sha1Extend 64 (beWords block)
  let (a, b, c, d, e) := ((List.range 80).zip w).foldl sha1Round h
  let (h0, h1, h2, h3, h4) := h
  ((h0 + a) % M32, (h1 + b) % M32, (h2 + c) % M32, (h3 + d) % M32, (h4 + e) % M32)

/-- SHA-1 of a byte list, as a 20-byte list. -/
def sha1 (msg : List Nat) : List Nat :=
  let padded := sha1Pad msg
  let (h0, h1, h2, h3, h4) :=
    (chunks64 padded.length padded).foldl sha1Block
      (1732584193, 4023233417, 2562383102, 271733878, 3285377520)
  beBytes 4 h0 ++ beBytes 4 h1 ++ beBytes 4 h2 ++ beBytes 4 h3 ++ beBytes 4 h4

/-! ## HMAC-SHA1 (RFC 2104) and hex encoding -/

/-- HMAC-SHA1 of `msg` under `key`, as a 20-byte list. -/
def hmacSha1 (key msg : List Nat) : List Nat :=
  let k0 := if 64 < key.length then sha1 key else key
  let k := k0 ++ List.replicate (64 - k0.length) 0
  let inner := sha1 (k.map (fun b => bxor b 54) ++ msg)
  sha1 (k.map (fun b => bxor b 92) ++ inner)

/-- The lowercase hex digit for `n < 16`. -/
def hexChar (n : Nat) : Char := "0123456789abcdef".data.getD n '0'

/-- Lowercase hex encoding of a byte list. -/
def bytesToHex (bs : List Nat) : List Char :=
  bs.foldr (fun b acc => hexChar (b / 16) :: hexChar (b % 16) :: acc) []

/-- `hmac.new(key, msg, sha1).hexdigest()`: the lowercase hex HMAC-SHA1 digest. -/
def hmacSha1Hex (key msg : List Nat) : List Char := bytesToHex (hmacSha1 key msg)

/-- UTF-8 bytes of one character. -/
def utf8Bytes (c : Char) : List Nat :=
  let n := c.toNat
  if n < 128 then [n]
  else if n < 2048 then [192 + n / 64, 128 + n % 64]
  else if n < 65536 then [224 + n / 4096, 128 + n / 64 % 64, 128 + n % 64]
  else [240 + n / 262144, 128 + n / 4096 % 64, 128 + n / 64 % 64, 128 + n % 64]

/-- `str.encode("utf-8")` on a character list. -/
def utf8Encode (s : List Char) : List Nat := s.flatMap utf8Bytes

/-! ## `_verify_signature` -/

/-- Python `str.isspace` on the ASCII whitespace characters `str.strip()`
removes: space, tab, newline, carriage return, vertical tab, form feed. -/
def pySpace (c : Char) : Bool :=
  c = ' ' || c = '\t' || c = '\n' || c = '\r' || c = Char.ofNat 11 || c = Char.ofNat 12

/-- Python `str.strip()`: drop leading and trailing whitespace. -/
def pyStrip (s : List Char) : List Char :=
  ((s.dropWhile pySpace).reverse.dropWhile pySpace).reverse

/-- `s.split("=", 1)[1]`: everything after the first `'='`.  In the code this
is only reached when the header starts with `"sha1="`, so an `'='` exists. -/
def afterFirstEq : List Char → List Char
  | [] => []
  | c :: cs => if c = '=' then cs else afterFirstEq cs

/-- The `"sha1="` scheme tag the header must start with. -/
def sigTag : List Char := ['s', 'h', 'a', '1', '=']

/-- `_verify_signature(raw_body, signature_header)` from `src/main.py`, with
the module-global `WEBSUB_SECRET` passed explicitly.  `hmac.compare_digest`
is modelled as equality (it is a constant-time equality check). -/
def verify_signature (secret : List Char) (raw : List Nat) (header : List Char) : Bool :=
  if secret = [] then true
  else if header = [] || !(sigTag.isPrefixOf header) then false
  else pyStrip (afterFirstEq header) == hmacSha1Hex (utf8Encode secret) raw

/-! ## `parse_atom_for_video`

The XML document is embedded as the element tree `xml.etree.ElementTree`
builds: each element has a (namespace-expanded) tag, attributes, optional
text, and children.  `find` with a simple tag searches direct children. -/

/-- An XML element as produced by `ElementTree.fromstring`. -/
inductive Xml where
  | elem (tag : String) (attrib : List (String × String)) (text : Option String)
      (children : List Xml)

/-- The element's namespace-expanded tag. -/
def Xml.tag : Xml → String
  | .elem t _ _ _ => t

/-- The element's attribute list. -/
def Xml.attrib : Xml → List (String × String)
  | .elem _ a _ _ => a

/-- The element's text, `none` when it has no text node. -/
def Xml.text : Xml → Option String
  | .elem _ _ t _ => t

/-- The element's direct children. -/
def Xml.children : Xml → List Xml
  | .elem _ _ _ c => c

/-- `element.find(tag, ns)`: the first direct child with the given
namespace-expanded tag, or `None`. -/
def findChild (t : String) (x : Xml) : Option Xml :=
  x.children.find? (fun c => c.tag == t)

/-- `attrib.get`-style lookup: the first binding of `k`, if any. -/
def attrGet (k : String) (attrs : List (String × String)) : Option String :=
  (attrs.find? (fun p => p.1 == k)).map (fun p => p.2)

/-- `"atom:entry"` with the Atom namespace expanded. -/
def atomEntryTag : String := "\x7bhttp://www.w3.org/2005/Atom\x7dentry"

/-- `"yt:videoId"` with the YouTube extension namespace expanded. -/
def ytVideoIdTag : String := "\x7bhttp://www.youtube.com/xml/schemas/2015\x7dvideoId"

/-- `"atom:title"` with the Atom namespace expanded. -/
def atomTitleTag : String := "\x7bhttp://www.w3.org/2005/Atom\x7dtitle"

/-- `"atom:link"` with the Atom namespace expanded. -/
def atomLinkTag : String := "\x7bhttp://www.w3.org/2005/Atom\x7dlink"

/-- `video_id = video_id_el.text if video_id_el is not None else None`. -/
def entryVideoId (entry : Xml) : Option String :=
  match findChild ytVideoIdTag entry with
  | some e => e.text
  | none => none

/-- `title = title_el.text if title_el is not None else "(no title)"`.
Note: a *present* title element with no text yields `none` (Python `None`),
not the placeholder. -/
def entryTitle (entry : Xml) : Option String :=
  match findChild atomTitleTag entry with
  | some e => e.text
  | none => some "(no title)"

/-- The initial `link` value: the `href` attribute of the entry's link
element when both exist, else `None`. -/
def entryHref (entry : Xml) : Option String :=
  match findChild atomLinkTag entry with
  | some e => attrGet "href" e.attrib
  | none => none

/-- The fixed watch-URL template applied to a video id. -/
def watchUrl (v : String) : String := "https://www.youtube.com/watch?v=" ++ v

/-- `parse_atom_for_video` from `src/main.py`, on the element tree of the
document: returns `(video_id, title, link)` or `None`.  A falsy
(`None` or empty) video id yields `None`; a falsy `href` is replaced by the
watch-URL template (`if not link and video_id`). -/
def parse_atom_for_video (root : Xml) : Option (String × Option String × String) :=
  match findChild atomEntryTag root with
  | none => none
  | some entry =>
    match entryVideoId entry with
    | none => none
    | some v =>
      if v = "" then none
      else
        some (v, entryTitle entry,
          match entryHref entry with
          | some l => if l = "" then watchUrl v else l
          | none => watchUrl v)

/-! ## `announce_video` and the dedup set

The process-global `seen_video_ids` set is threaded explicitly as a
`List String` to which an id is appended only when absent.  The Discord
side effects are recorded as an event trace; the environment decides
whether the channel is cached, fetched, or whether lookup/send raises. -/

/-- How the Discord calls behave for this invocation. -/
inductive DiscordEnv where
  /-- `bot.get_channel` returns the cached channel; `send` succeeds. -/
  | channelCached
  /-- `bot.get_channel` returns `None`; `fetch_channel` and `send` succeed. -/
  | channelFetched
  /-- `bot.get_channel` returns `None` and `fetch_channel` raises. -/
  | lookupError
  /-- the channel resolves but `channel.send` raises. -/
  | sendError
deriving DecidableEq

/-- An observable effect of `announce_video`. -/
inductive AEv where
  /-- `seen_video_ids.add(video_id)`. -/
  | addSeen (v : String)
  /-- `channel.send(...)` was attempted with this message. -/
  | sendMsg (m : String)
deriving DecidableEq

/-- Whether an event is a send attempt. -/
def isSendEv : AEv → Bool
  | .sendMsg _ => true
  | _ => false

/-- Python string interpolation of an optional value (`None` prints as
`"None"`). -/
def pyShow : Option String → String
  | some s => s
  | none => "None"

/-- The announcement message `f"📢 **New upload:** {title}\n{link}"`. -/
def announceMsg (title link : String) : String :=
  "📢 **New upload:** " ++ title ++ "\n" ++ link

/-- The outcome of one `announce_video` call. -/
structure AnnResult where
  /-- The dedup set after the call. -/
  seen : List String
  /-- The trace of effects, in order. -/
  events : List AEv
  /-- Whether the id passed the dedup check (was claimed). -/
  claimed : Bool
  /-- Whether the message was actually sent. -/
  sent : Bool
deriving DecidableEq

/-- `announce_video(video_id, title, link)` from `src/main.py`: return early
if the id is already seen; otherwise add it to the set *first*, then resolve
the channel and send.  A raise during lookup or send propagates after the id
is already recorded. -/
def announce_video (env : DiscordEnv) (seen : List String) (video_id : String)
    (title : Option String) (link : String) : AnnResult :=
  if video_id ∈ seen then ⟨seen, [], false, false⟩
  else
    let seen' := seen ++ [video_id]
    let m := announceMsg (pyShow title) link
    match env with
    | .lookupError => ⟨seen', [.addSeen video_id], true, false⟩
    | .sendError => ⟨seen', [.addSeen video_id, .sendMsg m], true, false⟩
    | .channelCached => ⟨seen', [.addSeen video_id, .sendMsg m], true, true⟩
    | .channelFetched => ⟨seen', [.addSeen video_id, .sendMsg m], true, true⟩

/-- One call to `announce_video` in a call sequence. -/
structure Call where
  env : DiscordEnv
  vid : String
  title : Option String
  link : String
deriving DecidableEq

/-- What one call in a sequence did. -/
structure CallLog where
  vid : String
  claimed : Bool
  sent : Bool
deriving DecidableEq

/-- Run a sequence of `announce_video` calls against the shared dedup set,
returning the final set and the per-call log. -/
def annRun : List String → List Call → List String × List CallLog
  | seen, [] => (seen, [])
  | seen, c :: rest =>
    let r := announce_video c.env seen c.vid c.title c.link
    ((annRun r.seen rest).1, ⟨c.vid, r.claimed, r.sent⟩ :: (annRun r.seen rest).2)

/-- The number of calls in a sequence for a given id. -/
def callsFor (X : String) (calls : List Call) : Nat :=
  (calls.filter (fun c => c.vid == X)).length

/-! ## The HTTP handlers -/

/-- `websub_get`: echo a truthy `hub.challenge` query parameter, else answer
`"ok"`; always status 200.  The query is the ordered parameter list;
`query.get` returns the first binding. -/
def qget (k : String) (q : List (String × String)) : Option String :=
  (q.find? (fun p => p.1 == k)).map (fun p => p.2)

/-- `websub_get(request)` from `src/main.py`: `(status, body)`. -/
def websub_get (q : List (String × String)) : Nat × String :=
  match qget "hub.challenge" q with
  | some c => if c = "" then (200, "ok") else (200, c)
  | none => (200, "ok")

/-- An observable step of the POST handler. -/
inductive PEv where
  /-- the body was decoded and fed to the XML parser. -/
  | parseBody
  /-- a background `announce_video` task was created for this id. -/
  | createTask (v : String)
deriving DecidableEq

/-- The outcome of one POST request, with the scheduled announce task run
to completion. -/
structure PostOut where
  /-- The HTTP status of the response. -/
  status : Nat
  /-- The dedup set after the request (and its task, if any). -/
  seen : List String
  /-- The handler's observable steps, in order. -/
  events : List PEv
  /-- Whether an announcement was dispatched. -/
  sent : Bool
deriving DecidableEq

/-- `websub_post(request)` from `src/main.py`.  `body` is the element tree
the raw bytes parse to, `none` when `ET.fromstring` raises (caught by the
handler's `try`, giving 500).  The created announce task is run inline. -/
def handle_post (secret : List Char) (raw : List Nat) (sig : List Char)
    (body : Option Xml) (env : DiscordEnv) (seen : List String) : PostOut :=
  if verify_signature secret raw sig then
    match body with
    | none => ⟨500, seen, [.parseBody], false⟩
    | some root =>
      match parse_atom_for_video root with
      | none => ⟨204, seen, [.parseBody], false⟩
      | some (v, t, l) =>
        let r := announce_video env seen v t l
        ⟨204, r.seen, [.parseBody, .createTask v], r.sent⟩
  else ⟨403, seen, [], false⟩

/-! ## `subscribe_websub` -/

/-- The fixed hub endpoint. -/
def HUB_URL : String := "https://pubsubhubbub.appspot.com/subscribe"

/-- One form-encoded POST to the hub. -/
structure HubRequest where
  url : String
  form : List (String × String)
deriving DecidableEq

/-- The form data of the subscription request; `hub.secret` is included
exactly when a secret is configured. -/
def subData (secret topic callback : String) : List (String × String) :=
  [("hub.mode", "subscribe"), ("hub.topic", topic), ("hub.callback", callback),
   ("hub.verify", "async")] ++ (if secret = "" then [] else [("hub.secret", secret)])

/-- `subscribe_websub(session)` from `src/main.py`: issues exactly one POST;
a status outside `(202, 204, 200)` raises `RuntimeError`, modelled as
`Except.error` with the message the code formats. -/
def subscribe_websub (secret topic callback : String) (status : Nat) (text : String) :
    List HubRequest × Except String Unit :=
  let reqs := [⟨HUB_URL, subData secret topic callback⟩]
  if status = 202 ∨ status = 204 ∨ status = 200 then (reqs, .ok ())
  else (reqs, .error ("WebSub subscribe failed: " ++ toString status ++ " " ++ text))

/-! ## Sanity checks of the hash layer against published test vectors -/

set_option maxRecDepth 100000 in
/-- FIPS 180-4 test vector: `SHA1("abc")`. -/
theorem sha1_vector_abc :
    bytesToHex (sha1 (utf8Encode "abc".data)) =
      "a9993e364706816aba3e25717850c26c9cd0d89d".data := by decide

set_option maxRecDepth 100000 in
set_option maxHeartbeats 1000000 in
/-- RFC 2202 test case 2: `HMAC-SHA1("Jefe", "what do ya want for nothing?")`. -/
theorem hmacSha1_vector_rfc2202 :
    hmacSha1Hex (utf8Encode "Jefe".data)
        (utf8Encode "what do ya want for nothing?".data) =
      "effcdf6ae5eb2fa2d27416d5f184df9c259a7c79".data := by decide

/-! ## Concrete documents and inputs used by witnesses and counterexamples -/

/-- A well-formed feed with no entry element. -/
def cDocEmpty : Xml := .elem "feed" [] none []

/-- An entry lacking the `yt:videoId` field. -/
def cEntryNoId : Xml := .elem atomEntryTag [] none [.elem atomTitleTag [] (some "T") []]

/-- A feed whose entry lacks the `yt:videoId` field. -/
def cDocNoId : Xml := .elem "feed" [] none [cEntryNoId]

/-- The entry with id `"abc123"`, a title, and no link element. -/
def cEntryAbc : Xml := .elem atomEntryTag [] none
  [.elem ytVideoIdTag [] (some "abc123") [], .elem atomTitleTag [] (some "Hi") []]

/-- A feed whose entry has id `"abc123"`, a title, and no link element. -/
def cDocAbc : Xml := .elem "feed" [] none [cEntryAbc]

/-- A feed whose entry has an id and a *present but empty* title element. -/
def cDocBareTitle : Xml := .elem "feed" [] none [.elem atomEntryTag [] none
  [.elem ytVideoIdTag [] (some "x") [], .elem atomTitleTag [] none []]]

/-- An entry with an id and no title element at all. -/
def cEntryNoTitle : Xml := .elem atomEntryTag [] none [.elem ytVideoIdTag [] (some "y") []]

/-- A feed whose entry has an id and no title element. -/
def cDocNoTitle : Xml := .elem "feed" [] none [cEntryNoTitle]

/-- A feed whose entry has a videoId element holding empty text. -/
def cDocEmptyId : Xml := .elem "feed" [] none [.elem atomEntryTag [] none
  [.elem ytVideoIdTag [] (some "") [], .elem atomTitleTag [] (some "T") []]]

/-- A feed whose entry has a videoId element holding no text at all. -/
def cDocNilId : Xml := .elem "feed" [] none [.elem atomEntryTag [] none
  [.elem ytVideoIdTag [] none [], .elem atomTitleTag [] (some "T") []]]

/-- The one-byte secret `"s"` used in concrete signature checks. -/
def cSecret : List Char := ['s']

/-- `HMAC-SHA1(key="s", msg=b"")` in lowercase hex (checked below). -/
def cDigest : List Char := "71d58ad26842efdab8a2d541818921d2066afebd".data

/-! ## Claim theorems -/

/-- Claim C9: the subscription call succeeds exactly when the hub answers
200, 202 or 204; any other status raises (`Except.error`), and the call
issues exactly one request — no immediate retry. -/
theorem C9_subscribe (secret topic callback : String) (status : Nat) (text : String) :
    ((subscribe_websub secret topic callback status text).2 = .ok () ↔
      (status = 200 ∨ status = 202 ∨ status = 204)) ∧
    (¬(status = 200 ∨ status = 202 ∨ status = 204) →
      (subscribe_websub secret topic callback status text).2 =
        .error ("WebSub subscribe failed: " ++ toString status ++ " " ++ text)) ∧
    (subscribe_websub secret topic callback status text).1.length = 1 := by
  simp only [subscribe_websub]
  by_cases h : status = 202 ∨ status = 204 ∨ status = 200
  · rw [if_pos h]
    refine ⟨?_, fun hc => absurd (by tauto) hc, rfl⟩
    constructor
    · exact fun _ => by tauto
    · exact fun _ => rfl
  · rw [if_neg h]
    refine ⟨?_, fun _ => rfl, rfl⟩
    constructor
    · exact fun hc => by cases hc
    · exact fun hc => absurd (by tauto) h

/-- Claim C9 witness: status 202 succeeds, status 301 fails, one request each. -/
theorem C9_witness :
    (subscribe_websub "sec" "topic" "cb" 202 "").2 = .ok () ∧
    (subscribe_websub "sec" "topic" "cb" 301 "moved").2 =
      .error ("WebSub subscribe failed: " ++ toString 301 ++ " " ++ "moved") ∧
    (subscribe_websub "sec" "topic" "cb" 301 "moved").1.length = 1 :=
  ⟨(C9_subscribe "sec" "topic" "cb" 202 "").1.mpr (by tauto),
   (C9_subscribe "sec" "topic" "cb" 301 "moved").2.1 (by simp),
   (C9_subscribe "sec" "topic" "cb" 301 "moved").2.2⟩

/-- Claim C8 counterexample: the parameter `hub.challenge` *present with an
empty value* is not echoed verbatim — the handler answers the generic body
`"ok"`, because the code tests truthiness (`if challenge:`), not presence. -/
theorem C8_counterexample :
    qget "hub.challenge" [("hub.challenge", "")] = some "" ∧
    websub_get [("hub.challenge", "")] = (200, "ok") ∧ ("ok" : String) ≠ "" := by
  refine ⟨rfl, rfl, by decide⟩

/-- Claim C8 as amended: a present *non-empty* challenge is echoed verbatim
with status 200; an absent or empty challenge gets body `"ok"`, status 200. -/
theorem C8_challenge (q : List (String × String)) :
    (∀ c, qget "hub.challenge" q = some c → c ≠ "" → websub_get q = (200, c)) ∧
    (∀ c, qget "hub.challenge" q = some c → c = "" → websub_get q = (200, "ok")) ∧
    (qget "hub.challenge" q = none → websub_get q = (200, "ok")) := by
  refine ⟨fun c h hne => ?_, fun c h he => ?_, fun h => ?_⟩
  · simp only [websub_get, h, if_neg hne]
  · simp only [websub_get, h, if_pos he]
  · simp only [websub_get, h]

/-- Claim C8 witness: `hub.challenge=xyz789` is echoed. -/
theorem C8_witness :
    websub_get [("hub.challenge", "xyz789")] = (200, "xyz789") ∧
    websub_get [] = (200, "ok") :=
  ⟨(C8_challenge [("hub.challenge", "xyz789")]).1 "xyz789" rfl (by decide),
   (C8_challenge []).2.2 rfl⟩

/-- Claim C5: a document with no entry element parses to `none`, and so does
one whose entry lacks the `yt:videoId` field — both as normal results. -/
theorem C5_absent (root : Xml) :
    (findChild atomEntryTag root = none → parse_atom_for_video root = none) ∧
    (∀ entry, findChild atomEntryTag root = some entry →
      findChild ytVideoIdTag entry = none → parse_atom_for_video root = none) := by
  constructor
  · intro h; simp only [parse_atom_for_video, h]
  · intro entry h hv
    simp only [parse_atom_for_video, h, entryVideoId, hv]

/-- Claim C5 witness: the two concrete documents. -/
theorem C5_witness :
    parse_atom_for_video cDocEmpty = none ∧ parse_atom_for_video cDocNoId = none :=
  ⟨(C5_absent cDocEmpty).1 rfl, (C5_absent cDocNoId).2 cEntryNoId rfl rfl⟩

/-- Claim C6: an entry with video id `"abc123"` and no explicit link — no
link element, or one without an `href` — yields the fixed template link
`"https://www.youtube.com/watch?v=abc123"`. -/
theorem C6_link_template (root entry vidEl : Xml)
    (h1 : findChild atomEntryTag root = some entry)
    (h2 : findChild ytVideoIdTag entry = some vidEl)
    (h3 : vidEl.text = some "abc123")
    (h4 : entryHref entry = none) :
    parse_atom_for_video root =
      some ("abc123", entryTitle entry, "https://www.youtube.com/watch?v=abc123") := by
  have hid : entryVideoId entry = some "abc123" := by
    simp only [entryVideoId, h2]; exact h3
  simp only [parse_atom_for_video, h1, hid, h4,
    if_neg (by decide : ¬("abc123" : String) = "")]
  rfl

/-- Claim C6 witness: the concrete linkless document. -/
theorem C6_witness :
    parse_atom_for_video cDocAbc =
      some ("abc123", some "Hi", "https://www.youtube.com/watch?v=abc123") :=
  C6_link_template cDocAbc cEntryAbc (.elem ytVideoIdTag [] (some "abc123") []) rfl rfl rfl rfl

/-- Claim C7 counterexample: an entry whose title element is *present but
empty* is returned with title `None` — the placeholder is only substituted
when the element is absent, so the returned title can be empty. -/
theorem C7_counterexample :
    parse_atom_for_video cDocBareTitle =
      some ("x", none, "https://www.youtube.com/watch?v=x") := rfl

/-- Claim C7 as amended: the returned title is the placeholder `"(no title)"`
when the title element is absent, and the element's text — possibly absent —
when it is present. -/
theorem C7_title (root entry : Xml) (res : String × Option String × String)
    (h1 : findChild atomEntryTag root = some entry)
    (h2 : parse_atom_for_video root = some res) :
    res.2.1 = entryTitle entry ∧
    (findChild atomTitleTag entry = none → res.2.1 = some "(no title)") := by
  rcases hv : entryVideoId entry with _ | v
  · simp [parse_atom_for_video, h1, hv] at h2
  · simp only [parse_atom_for_video, h1, hv] at h2
    by_cases he : v = ""
    · rw [if_pos he] at h2; cases h2
    · rw [if_neg he] at h2
      injection h2 with h2
      subst h2
      exact ⟨rfl, fun habs => by
        show entryTitle entry = some "(no title)"
        simp only [entryTitle, habs]⟩

/-- Claim C7 witness for the amended statement: an absent title element
gives the placeholder. -/
theorem C7_witness :
    parse_atom_for_video cDocNoTitle = some ("y", some "(no title)", watchUrl "y") ∧
    ("y", some "(no title)", watchUrl "y").2.1 = some "(no title)" :=
  ⟨rfl, (C7_title cDocNoTitle cEntryNoTitle ("y", some "(no title)", watchUrl "y") rfl rfl).2 rfl⟩

/-- Claim C10: a `yt:videoId` element that is present but holds no (or
empty) text makes the whole entry invalid — `parse_atom_for_video` returns
`none`, exactly as when the element is missing. -/
theorem C10_empty_id (root entry e : Xml)
    (h1 : findChild atomEntryTag root = some entry)
    (h2 : findChild ytVideoIdTag entry = some e)
    (h3 : e.text = none ∨ e.text = some "") :
    parse_atom_for_video root = none := by
  rcases h3 with h3 | h3
  · have hid : entryVideoId entry = none := by simp only [entryVideoId, h2]; exact h3
    simp only [parse_atom_for_video, h1, hid]
  · have hid : entryVideoId entry = some "" := by simp only [entryVideoId, h2]; exact h3
    simp [parse_atom_for_video, h1, hid]

/-- Claim C10 witness: empty-text and text-less videoId elements. -/
theorem C10_witness :
    parse_atom_for_video cDocEmptyId = none ∧ parse_atom_for_video cDocNilId = none :=
  ⟨C10_empty_id cDocEmptyId (.elem atomEntryTag [] none
      [.elem ytVideoIdTag [] (some "") [], .elem atomTitleTag [] (some "T") []])
      (.elem ytVideoIdTag [] (some "") []) rfl rfl (Or.inr rfl),
   C10_empty_id cDocNilId (.elem atomEntryTag [] none
      [.elem ytVideoIdTag [] none [], .elem atomTitleTag [] (some "T") []])
      (.elem ytVideoIdTag [] none []) rfl rfl (Or.inl rfl)⟩

/-! ## Dedup/dispatch lemmas -/

/-- An already-seen id is rejected: the call returns immediately, touching
nothing and sending nothing. -/
theorem announce_video_mem (env : DiscordEnv) (seen : List String) (v : String)
    (t : Option String) (l : String) (h : v ∈ seen) :
    announce_video env seen v t l = ⟨seen, [], false, false⟩ := by
  simp [announce_video, h]

/-- A new id is claimed: it is appended to the set and the trace starts with
the `addSeen` event. -/
theorem announce_video_not_mem (env : DiscordEnv) (seen : List String) (v : String)
    (t : Option String) (l : String) (h : v ∉ seen) :
    (announce_video env seen v t l).seen = seen ++ [v] ∧
    (announce_video env seen v t l).claimed = true ∧
    (announce_video env seen v t l).events.head? = some (.addSeen v) := by
  cases env <;> simp [announce_video, h]

/-- Claim C4: when dispatch fails after the claim — the channel lookup or
the send raises — the id is already in the dedup set (it is added before the
send is attempted, as the trace order shows), nothing was sent, the send is
not retried within the call, and the claim is not rolled back: a later
notification for the same id returns without dispatching anything. -/
theorem C4_failed_dispatch (env : DiscordEnv) (seen : List String) (v : String)
    (t : Option String) (l : String) (hv : v ∉ seen)
    (hfail : env = .lookupError ∨ env = .sendError) :
    (announce_video env seen v t l).events.head? = some (.addSeen v) ∧
    v ∈ (announce_video env seen v t l).seen ∧
    (announce_video env seen v t l).sent = false ∧
    (announce_video env seen v t l).events.countP isSendEv ≤ 1 ∧
    (∀ env2 t2 l2, announce_video env2 (announce_video env seen v t l).seen v t2 l2 =
      ⟨(announce_video env seen v t l).seen, [], false, false⟩) := by
  have hsend : ∀ env2 t2 l2 (s : List String), v ∈ s →
      announce_video env2 s v t2 l2 = ⟨s, [], false, false⟩ :=
    fun env2 t2 l2 s hs => announce_video_mem env2 s v t2 l2 hs
  rcases hfail with h | h <;> subst h <;>
    refine ⟨?_, ?_, ?_, ?_, fun env2 t2 l2 => hsend env2 t2 l2 _ ?_⟩ <;>
    simp [announce_video, hv, isSendEv]

/-- Claim C4 witness: a failing send for a fresh id, then a retry. -/
theorem C4_witness :
    ("a" ∉ ([] : List String)) ∧
    (announce_video .sendError [] "a" none "x").sent = false ∧
    "a" ∈ (announce_video .sendError [] "a" none "x").seen ∧
    announce_video .channelCached (announce_video .sendError [] "a" none "x").seen "a" none "y" =
      ⟨(announce_video .sendError [] "a" none "x").seen, [], false, false⟩ := by
  have h := C4_failed_dispatch .sendError [] "a" none "x" (by decide) (Or.inr rfl)
  exact ⟨by decide, h.2.2.1, h.2.1, h.2.2.2.2 .channelCached none "y"⟩

/-- Unfolding the run on a cons: the final set. -/
theorem annRun_cons_fst (seen : List String) (c : Call) (rest : List Call) :
    (annRun seen (c :: rest)).1 =
      (annRun (announce_video c.env seen c.vid c.title c.link).seen rest).1 := rfl

/-- Unfolding the run on a cons: the log. -/
theorem annRun_cons_snd (seen : List String) (c : Call) (rest : List Call) :
    (annRun seen (c :: rest)).2 =
      ⟨c.vid, (announce_video c.env seen c.vid c.title c.link).claimed,
        (announce_video c.env seen c.vid c.title c.link).sent⟩ ::
        (annRun (announce_video c.env seen c.vid c.title c.link).seen rest).2 := rfl

/-- The call count for an id steps by one exactly on calls with that id. -/
theorem callsFor_cons (X : String) (c : Call) (rest : List Call) :
    callsFor X (c :: rest) = (if c.vid == X then 1 else 0) + callsFor X rest := by
  simp only [callsFor, List.filter_cons]
  by_cases h : c.vid == X
  · simp [h, Nat.add_comm]
  · simp [h]

/-- A run started with `X` already seen logs only rejections `⟨X, false,
false⟩` for `X` and never grows the set's `X`-count. -/
theorem annRun_mem (X : String) (calls : List Call) :
    ∀ seen : List String, X ∈ seen →
      ((annRun seen calls).2.filter (fun lg => lg.vid == X)) =
        List.replicate (callsFor X calls) ⟨X, false, false⟩ ∧
      (annRun seen calls).1.count X = seen.count X ∧ X ∈ (annRun seen calls).1 := by
  induction calls with
  | nil => intro seen h; exact ⟨rfl, rfl, h⟩
  | cons c rest ih =>
    intro seen h
    rw [annRun_cons_fst, annRun_cons_snd]
    by_cases hc : c.vid ∈ seen
    · have hr := announce_video_mem c.env seen c.vid c.title c.link hc
      have hseen : (announce_video c.env seen c.vid c.title c.link).seen = seen := by rw [hr]
      have hcl : (announce_video c.env seen c.vid c.title c.link).claimed = false := by rw [hr]
      have hst : (announce_video c.env seen c.vid c.title c.link).sent = false := by rw [hr]
      rw [hseen, hcl, hst]
      obtain ⟨ihf, ihc, ihm⟩ := ih seen h
      by_cases hx : c.vid = X
      · subst hx
        refine ⟨?_, ihc, ihm⟩
        rw [List.filter_cons_of_pos (by simp), ihf, callsFor_cons]
        simp [List.replicate_succ, Nat.add_comm]
      · refine ⟨?_, ihc, ihm⟩
        rw [List.filter_cons_of_neg (by simp [hx]), ihf, callsFor_cons]
        simp [hx]
    · have hr := announce_video_not_mem c.env seen c.vid c.title c.link hc
      rw [hr.1]
      have hx : c.vid ≠ X := fun e => hc (e ▸ h)
      obtain ⟨ihf, ihc, ihm⟩ := ih (seen ++ [c.vid]) (List.mem_append_left _ h)
      refine ⟨?_, ?_, ihm⟩
      · rw [List.filter_cons_of_neg (by simp [hx]), ihf, callsFor_cons]
        simp [hx]
      · rw [ihc, List.count_append,
          List.count_eq_zero.mpr (fun hm => hx (List.mem_singleton.mp hm).symm),
          Nat.add_zero]

/-- A run started with `X` unseen: with no call for `X` nothing is logged
for `X` and the count is unchanged; with `k + 1` calls for `X`, the first is
claimed (and possibly dispatched), the remaining `k` are rejections, and `X`
enters the set exactly once. -/
theorem annRun_not_mem (X : String) (calls : List Call) :
    ∀ seen : List String, X ∉ seen →
      (callsFor X calls = 0 →
        ((annRun seen calls).2.filter (fun lg => lg.vid == X)) = [] ∧
        (annRun seen calls).1.count X = seen.count X) ∧
      (∀ n, callsFor X calls = n + 1 → ∃ s,
        ((annRun seen calls).2.filter (fun lg => lg.vid == X)) =
          ⟨X, true, s⟩ :: List.replicate n ⟨X, false, false⟩ ∧
        (annRun seen calls).1.count X = seen.count X + 1) := by
  induction calls with
  | nil =>
    intro seen h
    refine ⟨fun _ => ⟨rfl, rfl⟩, fun n hn => ?_⟩
    simp [callsFor] at hn
  | cons c rest ih =>
    intro seen h
    rw [annRun_cons_fst, annRun_cons_snd]
    by_cases hx : c.vid = X
    · subst hx
      have hr := announce_video_not_mem c.env seen c.vid c.title c.link h
      rw [hr.1, hr.2.1]
      have hmem : c.vid ∈ seen ++ [c.vid] := List.mem_append_right _ (by simp)
      obtain ⟨mf, mc, _⟩ := annRun_mem c.vid rest (seen ++ [c.vid]) hmem
      constructor
      · intro h0
        rw [callsFor_cons] at h0
        simp at h0
      · intro n hn
        rw [callsFor_cons] at hn
        simp at hn
        have hrest : callsFor c.vid rest = n := by omega
        refine ⟨(announce_video c.env seen c.vid c.title c.link).sent, ?_, ?_⟩
        · rw [List.filter_cons_of_pos (by simp), mf, hrest]
        · rw [mc, List.count_append, List.count_eq_zero.mpr h]
          simp
    · have hbx : (c.vid == X) = false := beq_eq_false_iff_ne.mpr hx
      by_cases hc : c.vid ∈ seen
      · have hr := announce_video_mem c.env seen c.vid c.title c.link hc
        have hseen : (announce_video c.env seen c.vid c.title c.link).seen = seen := by rw [hr]
        rw [hseen]
        obtain ⟨ih0, ihs⟩ := ih seen h
        constructor
        · intro h0
          rw [callsFor_cons, hbx] at h0
          simp at h0
          obtain ⟨f0, c0⟩ := ih0 h0
          exact ⟨by rw [List.filter_cons_of_neg (by simp [hx]), f0], c0⟩
        · intro n hn
          rw [callsFor_cons, hbx] at hn
          simp at hn
          obtain ⟨s, hf, hcnt⟩ := ihs n hn
          exact ⟨s, by rw [List.filter_cons_of_neg (by simp [hx]), hf], hcnt⟩
      · have hr := announce_video_not_mem c.env seen c.vid c.title c.link hc
        rw [hr.1]
        have hxs : X ∉ seen ++ [c.vid] := by
          intro hmem
          rcases List.mem_append.mp hmem with hm | hm
          · exact h hm
          · exact hx (List.mem_singleton.mp hm).symm
        have hcnt2 : (seen ++ [c.vid]).count X = seen.count X := by
          rw [List.count_append,
            List.count_eq_zero.mpr (fun hm => hx (List.mem_singleton.mp hm).symm),
            Nat.add_zero]
        obtain ⟨ih0, ihs⟩ := ih (seen ++ [c.vid]) hxs
        constructor
        · intro h0
          rw [callsFor_cons, hbx] at h0
          simp at h0
          obtain ⟨f0, c0⟩ := ih0 h0
          exact ⟨by rw [List.filter_cons_of_neg (by simp [hx]), f0], by rw [c0, hcnt2]⟩
        · intro n hn
          rw [callsFor_cons, hbx] at hn
          simp at hn
          obtain ⟨s, hf, hcnt⟩ := ihs n hn
          exact ⟨s, by rw [List.filter_cons_of_neg (by simp [hx]), hf],
            by rw [hcnt, hcnt2]⟩

/-- Claim C1: starting from a set not containing `X`, over any call
sequence: with no call for `X` nothing is logged for `X`; otherwise the
first call for `X` passes the seen-set check (is claimed, and possibly
dispatches) and every subsequent call for `X` is rejected with no dispatch
(`⟨X, false, false⟩`); and `X` ends up in the set at most once. -/
theorem C1_dedup (seen₀ : List String) (X : String) (calls : List Call)
    (hX : X ∉ seen₀) :
    (callsFor X calls = 0 → ((annRun seen₀ calls).2.filter (fun lg => lg.vid == X)) = []) ∧
    (∀ n, callsFor X calls = n + 1 → ∃ s,
      ((annRun seen₀ calls).2.filter (fun lg => lg.vid == X)) =
        ⟨X, true, s⟩ :: List.replicate n ⟨X, false, false⟩) ∧
    (annRun seen₀ calls).1.count X ≤ 1 := by
  obtain ⟨h0, hs⟩ := annRun_not_mem X calls seen₀ hX
  have hc0 : seen₀.count X = 0 := List.count_eq_zero.mpr hX
  refine ⟨fun hn => (h0 hn).1, fun n hn => ?_, ?_⟩
  · obtain ⟨s, hf, _⟩ := hs n hn
    exact ⟨s, hf⟩
  · rcases hcalls : callsFor X calls with _ | n
    · rw [(h0 hcalls).2, hc0]
      exact Nat.zero_le 1
    · obtain ⟨s, _, hcnt⟩ := hs n hcalls
      rw [hcnt, hc0]

/-- The two-call sequence for the same id used as the C1 witness. -/
def cCalls : List Call :=
  [⟨.channelCached, "a", some "T", "L"⟩, ⟨.channelCached, "a", some "T", "L"⟩]

/-- Claim C1 witness: two calls for a fresh id — one claim, one rejection,
the id in the set once. -/
theorem C1_witness :
    ("a" ∉ ([] : List String)) ∧
    (∃ s, ((annRun [] cCalls).2.filter (fun lg => lg.vid == "a")) =
      ⟨"a", true, s⟩ :: List.replicate 1 ⟨"a", false, false⟩) ∧
    (annRun [] cCalls).1.count "a" ≤ 1 := by
  have h := C1_dedup [] "a" cCalls (by decide)
  exact ⟨by decide, h.2.1 1 rfl, h.2.2⟩

/-! ## Signature verification -/

/-- `List.isPrefixOf` agrees with prefix decomposition. -/
theorem isPrefixOf_eq (l1 l2 : List Char) :
    l1.isPrefixOf l2 = true ↔ ∃ t, l1 ++ t = l2 :=
  ( List.isPrefixOf_iff_prefix)

/-- `afterFirstEq` on a cons. -/
theorem afterFirstEq_cons (c : Char) (cs : List Char) :
    afterFirstEq (c :: cs) = if c = '=' then cs else afterFirstEq cs := rfl

/-- The part after the first `'='` of `"sha1=" ++ rest` is `rest`. -/
theorem afterFirstEq_sigTag (rest : List Char) : afterFirstEq (sigTag ++ rest) = rest := by
  show afterFirstEq ('s' :: 'h' :: 'a' :: '1' :: '=' :: rest) = rest
  rw [afterFirstEq_cons, if_neg (by decide), afterFirstEq_cons, if_neg (by decide),
    afterFirstEq_cons, if_neg (by decide), afterFirstEq_cons, if_neg (by decide),
    afterFirstEq_cons, if_pos rfl]

/-- Claim C2 as amended: with a non-empty secret, verification succeeds iff
the header starts with `"sha1="` and the remainder after that prefix,
*stripped of surrounding whitespace*, equals the lowercase hex HMAC-SHA1 of
the body under the secret.  (Because of `.strip()`, the accepted headers are
not only the exact canonical `"sha1=" ++ digest`.) -/
theorem C2_verify_iff (secret : List Char) (raw : List Nat) (header : List Char)
    (hsec : secret ≠ []) :
    verify_signature secret raw header = true ↔
      ∃ rest, header = sigTag ++ rest ∧
        pyStrip rest = hmacSha1Hex (utf8Encode secret) raw := by
  simp only [verify_signature, if_neg hsec]
  constructor
  · intro h
    by_cases hpre : sigTag.isPrefixOf header
    · obtain ⟨rest, hrest⟩ := (isPrefixOf_eq sigTag header).mp hpre
      subst hrest
      have hcond : (decide ((sigTag ++ rest : List Char) = []) ||
          !(sigTag.isPrefixOf (sigTag ++ rest))) = false := by
        rw [decide_eq_false (by simp [sigTag]),
          (isPrefixOf_eq sigTag (sigTag ++ rest)).mpr ⟨rest, rfl⟩]
        rfl
      rw [hcond] at h
      simp only [Bool.false_eq_true, if_false] at h
      rw [afterFirstEq_sigTag] at h
      exact ⟨rest, rfl, by simpa using h⟩
    · have hpf : sigTag.isPrefixOf header = false := Bool.eq_false_iff.mpr hpre
      have hb : (decide (header = []) || !(sigTag.isPrefixOf header)) = true := by
        simp [hpf]
      rw [hb] at h
      simp only [if_true] at h
      exact Bool.noConfusion h
  · rintro ⟨rest, rfl, hs⟩
    have hcond : (decide ((sigTag ++ rest : List Char) = []) ||
        !(sigTag.isPrefixOf (sigTag ++ rest))) = false := by
      rw [decide_eq_false (by simp [sigTag]),
        (isPrefixOf_eq sigTag (sigTag ++ rest)).mpr ⟨rest, rfl⟩]
      rfl
    rw [hcond]
    simp [afterFirstEq_sigTag, hs]

set_option maxRecDepth 1000000 in
set_option maxHeartbeats 4000000 in
/-- Claim C2 counterexample: the claimed "succeeds iff the header *equals*
`"sha1=" + hex(HMAC-SHA1(S, B))`" is false — because of `.strip()`, the
header `"sha1=" ++ digest ++ " "` (trailing space) also verifies, though it
differs from the canonical header. -/
theorem C2_counterexample :
    hmacSha1Hex (utf8Encode cSecret) [] = cDigest ∧
    verify_signature cSecret [] (sigTag ++ cDigest ++ [' ']) = true ∧
    sigTag ++ cDigest ++ [' '] ≠ sigTag ++ cDigest := by
  refine ⟨by decide, by decide, by decide⟩

set_option maxRecDepth 1000000 in
set_option maxHeartbeats 4000000 in
/-- Claim C2 witness for the amended statement: the canonical header for the
secret `"s"` and the empty body verifies. -/
theorem C2_witness :
    (cSecret ≠ []) ∧ verify_signature cSecret [] (sigTag ++ cDigest) = true :=
  ⟨by decide, (C2_verify_iff cSecret [] (sigTag ++ cDigest) (by decide)).mpr
    ⟨cDigest, rfl, by decide⟩⟩

/-! ## The POST handler -/

/-- Claim C3: with a secret configured, a POST whose signature fails
verification is answered 403 with *nothing else happening*: the body is not
parsed (no events), no task is created, the dedup set is untouched — and a
later correctly-signed request carrying an entry with the same, still
unclaimed id is answered 204 and dispatches. -/
theorem C3_bad_signature (secret : List Char) (raw raw2 : List Nat) (sig sig2 : List Char)
    (body : Option Xml) (root : Xml) (env : DiscordEnv) (seen : List String)
    (v : String) (t : Option String) (l : String)
    (hsec : secret ≠ [])
    (hbad : verify_signature secret raw sig = false)
    (hgood : verify_signature secret raw2 sig2 = true)
    (hparse : parse_atom_for_video root = some (v, t, l))
    (hnew : v ∉ seen) :
    handle_post secret raw sig body env seen = ⟨403, seen, [], false⟩ ∧
    (handle_post secret raw2 sig2 (some root) .channelCached seen).status = 204 ∧
    (handle_post secret raw2 sig2 (some root) .channelCached seen).sent = true := by
  have h2 : handle_post secret raw2 sig2 (some root) .channelCached seen =
      ⟨204, seen ++ [v], [.parseBody, .createTask v], true⟩ := by
    simp [handle_post, hgood, hparse, announce_video, hnew]
  exact ⟨by simp [handle_post, hbad], by rw [h2], by rw [h2]⟩

set_option maxRecDepth 1000000 in
set_option maxHeartbeats 4000000 in
/-- Claim C3 witness: a badly signed POST (empty signature header) is
answered 403 untouched; the correctly signed resend dispatches. -/
theorem C3_witness :
    verify_signature cSecret [] [] = false ∧
    verify_signature cSecret [] (sigTag ++ cDigest) = true ∧
    handle_post cSecret [] [] (some cDocAbc) .channelCached [] = ⟨403, [], [], false⟩ ∧
    (handle_post cSecret [] (sigTag ++ cDigest) (some cDocAbc) .channelCached []).sent =
      true := by
  have hg : verify_signature cSecret [] (sigTag ++ cDigest) = true := by decide
  have h := C3_bad_signature cSecret [] [] [] (sigTag ++ cDigest) (some cDocAbc) cDocAbc
    .channelCached [] "abc123" (some "Hi") "https://www.youtube.com/watch?v=abc123"
    (by decide) (by decide) hg rfl (by decide)
  exact ⟨by decide, hg, h.1, h.2.2⟩

end DiscordBot
